import Mathlib

/-!
Verification of the corrugated-roof profile calculator (`src/app.py`).

The two core functions, `calculate_corrugated_profile` and
`calculate_bending_cost`, are shallowly embedded below.  Real arithmetic
(`ℝ`) stands for the source's floating-point arithmetic, and `round(v, 2)`
is modelled by `round2` (round to the nearest multiple of 1/100, halves
rounded up).  The Python loop that emits four profile points per module is
modelled by the structurally recursive `profile_loop`; the sequential
mutation of `used_length`, `leftover` and `x_current` is modelled by
explicit `let`-bindings, with a numeric suffix added each time the source
reassigns a variable.
-/

noncomputable section

/-- Model of Python's `round(x, 2)`: round to two decimal places.
Ties are rounded up (Mathlib's `round`); the source's float tie behaviour
never matters at the inputs considered here. -/
def round2 (x : ℝ) : ℝ := (round (100 * x) : ℤ) / 100

/-- The tuple returned by `calculate_corrugated_profile` (source lines
98-99), with the source's variable names as field names. -/
structure ProfileResult where
  x_profile : List ℝ
  z_profile : List ℝ
  leftover_profile_x : List ℝ
  leftover_profile_z : List ℝ
  N : ℤ
  module_physical_length : ℝ
  L : ℝ
  slant_length : ℝ
  used_length : ℝ
  leftover : ℝ

/-- Model of the `for i in range(N)` loop of source lines 44-58: starting
from cursor `x`, emit `n` modules, each contributing x-coordinates
`[x, x+A, x+A+L, x+A+2L]` and heights `[0, 0, D, 0]`, the cursor advancing
by `A + 2L` per module.  Returns the x-list, the z-list and the final
cursor. -/
def profile_loop (A L D : ℝ) : ℕ → ℝ → List ℝ × List ℝ × ℝ
  | 0, x => ([], [], x)
  | n + 1, x =>
    let rest := profile_loop A L D n (x + A + 2 * L)
    (x :: (x + A) :: (x + A + L) :: (x + A + 2 * L) :: rest.1,
     (0 : ℝ) :: (0 : ℝ) :: D :: (0 : ℝ) :: rest.2.1,
     rest.2.2)

/-- Shallow embedding of `calculate_corrugated_profile` (source lines
14-99).  Variables reassigned in the source get a numeric suffix here:
`used_length0`/`leftover0` are the pre-closure values of lines 35-36,
`used_length1`/`leftover1` the post-closure values of lines 66-67, and
`x_current0`/`x_current1` the cursor before/after the trailing flat
closure.  The leftover-handling block of lines 69-96 produces the two
leftover point lists and the final (possibly further mutated) `leftover`
value that line 99 returns. -/
def calculate_corrugated_profile (A D degree total_length : ℝ) : ProfileResult :=
  let radian := degree * Real.pi / 180
  let L := round2 (D / Real.tan radian)
  let slant_length := round2 (D / Real.sin radian)
  let module_physical_length := A + 2 * slant_length
  let N : ℤ := ⌊total_length / module_physical_length⌋
  let used_length0 := (N : ℝ) * module_physical_length
  let leftover0 := total_length - used_length0
  let p := profile_loop A L D N.toNat 0
  let x_current0 := p.2.2
  let x_profile1 := if 0 < N then p.1 ++ [x_current0, x_current0 + A] else p.1
  let z_profile1 := if 0 < N then p.2.1 ++ [0, 0] else p.2.1
  let x_current1 := if 0 < N then x_current0 + A else x_current0
  let used_length1 := if 0 < N then used_length0 + A else used_length0
  let leftover1 := if 0 < N then total_length - (used_length0 + A) else leftover0
  let branch :=
    if 0 < leftover1 then
      if slant_length ≤ leftover1 then
        let leftover2 := leftover1 - slant_length
        if 0 < leftover2 then
          let part_slant := min leftover2 slant_length
          let part_height := D - part_slant * Real.sin radian
          let part_horizontal := part_slant * Real.cos radian
          ([x_current1 + L, x_current1 + L + part_horizontal],
           [D, max 0 part_height], leftover2)
        else
          ([x_current1 + L], [D], leftover2)
      else
        let part_slant := leftover1
        let part_height := part_slant * Real.sin radian
        let part_horizontal := part_slant * Real.cos radian
        ([x_current1 + part_horizontal], [part_height], leftover1)
    else ([], [], leftover1)
  { x_profile := x_profile1
    z_profile := z_profile1
    leftover_profile_x := branch.1
    leftover_profile_z := branch.2.1
    N := N
    module_physical_length := module_physical_length
    L := L
    slant_length := slant_length
    used_length := used_length1
    leftover := branch.2.2 }

/-- Model of the leftover-bend counting loop of source lines 112-119:
scan `leftover_z` from index `i`; at the first strictly positive height,
add `0` (and another `0` when the height increased) to the accumulator and
stop; otherwise keep scanning. -/
def leftover_bends_loop (leftover_z : List ℝ) (i : ℕ) (acc : ℤ) : ℤ :=
  if h : i < leftover_z.length then
    if 0 < leftover_z.get ⟨i, h⟩ then
      acc + 0 +
        (if 0 < i ∧ leftover_z.get ⟨i - 1, by omega⟩ < leftover_z.get ⟨i, h⟩ then 0 else 0)
    else leftover_bends_loop leftover_z (i + 1) acc
  else acc
termination_by leftover_z.length - i
decreasing_by omega

/-- Shallow embedding of `calculate_bending_cost` (source lines 101-124).
Python's truthiness test `if leftover_x and leftover_z` becomes the
non-emptiness test on both lists. -/
def calculate_bending_cost (N : ℤ) (leftover_x leftover_z : List ℝ)
    (cost_per_bend : ℝ) : ℤ × ℝ × ℤ × ℤ :=
  let complete_module_bends := N * 3
  let leftover_bends : ℤ :=
    if leftover_x ≠ [] ∧ leftover_z ≠ [] then
      if 0 < leftover_z.length then leftover_bends_loop leftover_z 0 0 else 0
    else 0
  let total_bends := complete_module_bends + leftover_bends
  (total_bends, (total_bends : ℝ) * cost_per_bend, complete_module_bends, leftover_bends)

/-! ### Basic facts about the profile loop -/

lemma profile_loop_cursor (A L D : ℝ) :
    ∀ (n : ℕ) (c : ℝ), (profile_loop A L D n c).2.2 = c + n * (A + 2 * L) := by
  intro n
  induction n with
  | zero => intro c; simp [profile_loop]
  | succ n ih =>
    intro c
    simp only [profile_loop, ih (c + A + 2 * L)]
    push_cast
    ring

lemma profile_loop_x_length (A L D : ℝ) :
    ∀ (n : ℕ) (c : ℝ), (profile_loop A L D n c).1.length = 4 * n := by
  intro n
  induction n with
  | zero => intro c; simp [profile_loop]
  | succ n ih =>
    intro c
    simp only [profile_loop, List.length_cons, ih (c + A + 2 * L)]
    omega

lemma profile_loop_z_length (A L D : ℝ) :
    ∀ (n : ℕ) (c : ℝ), (profile_loop A L D n c).2.1.length = 4 * n := by
  intro n
  induction n with
  | zero => intro c; simp [profile_loop]
  | succ n ih =>
    intro c
    simp only [profile_loop, List.length_cons, ih (c + A + 2 * L)]
    omega

lemma profile_loop_z_mem (A L D : ℝ) :
    ∀ (n : ℕ) (c : ℝ), ∀ z ∈ (profile_loop A L D n c).2.1, z = 0 ∨ z = D := by
  intro n
  induction n with
  | zero => intro c z hz; simp [profile_loop] at hz
  | succ n ih =>
    intro c z hz
    simp only [profile_loop, List.mem_cons] at hz
    rcases hz with h | h | h | h | h
    · exact Or.inl h
    · exact Or.inl h
    · exact Or.inr h
    · exact Or.inl h
    · exact ih (c + A + 2 * L) z h

/-! ### The leftover-bend loop always returns its accumulator -/

lemma leftover_bends_loop_aux (zs : List ℝ) :
    ∀ (k i : ℕ) (acc : ℤ), zs.length ≤ i + k → leftover_bends_loop zs i acc = acc := by
  intro k
  induction k with
  | zero =>
    intro i acc h
    rw [leftover_bends_loop]
    simp only [dif_neg (by omega : ¬ i < zs.length)]
  | succ k ih =>
    intro i acc h
    rw [leftover_bends_loop]
    by_cases hi : i < zs.length
    · simp only [dif_pos hi]
      by_cases hz : 0 < zs.get ⟨i, hi⟩
      · simp only [if_pos hz, add_zero, ite_self]
      · simp only [if_neg hz]
        exact ih (i + 1) acc (by omega)
    · simp only [dif_neg hi]

lemma leftover_bends_loop_eq_acc (zs : List ℝ) (i : ℕ) (acc : ℤ) :
    leftover_bends_loop zs i acc = acc :=
  leftover_bends_loop_aux zs zs.length i acc (by omega)

/-- Spec-side generator (spec section 4.1, step 4), used to compare the
emitted profile against the spec's wording: the four x-coordinates one
module appends when the cursor is at `c` are flat-start `c`, flat-end
`c + A`, peak `c + A + L`, valley `c + A + 2L`. -/
def module_xs (A L c : ℝ) : List ℝ := [c, c + A, c + A + L, c + A + 2 * L]

/-- Spec-side generator (spec section 4.1, step 4): the four heights one
module appends are 0, 0, D, 0. -/
def module_zs (D : ℝ) : List ℝ := [(0 : ℝ), 0, D, 0]

lemma profile_loop_x_join (A L D : ℝ) :
    ∀ (n : ℕ) (c : ℝ), (profile_loop A L D n c).1 =
      ((List.range n).map (fun i : ℕ => module_xs A L (c + (i : ℝ) * (A + 2 * L)))).flatten := by
  intro n
  induction n with
  | zero => intro c; simp [profile_loop]
  | succ n ih =>
    intro c
    have hfun : (fun i : ℕ => module_xs A L (c + ((Nat.succ i : ℕ) : ℝ) * (A + 2 * L))) =
        (fun i : ℕ => module_xs A L (c + A + 2 * L + (i : ℝ) * (A + 2 * L))) := by
      funext i
      congr 1
      push_cast
      ring
    simp only [profile_loop, ih (c + A + 2 * L)]
    rw [List.range_succ_eq_map, List.map_cons, List.map_map]
    simp only [Function.comp_def]
    rw [hfun]
    simp [module_xs]

lemma profile_loop_z_join (A L D : ℝ) :
    ∀ (n : ℕ) (c : ℝ), (profile_loop A L D n c).2.1 =
      ((List.range n).map (fun _ : ℕ => module_zs D)).flatten := by
  intro n
  induction n with
  | zero => intro c; simp [profile_loop]
  | succ n ih =>
    intro c
    simp only [profile_loop, ih (c + A + 2 * L)]
    rw [List.range_succ_eq_map, List.map_cons, List.map_map]
    simp [module_zs, Function.comp_def]

/-! ### Field characterizations of `calculate_corrugated_profile` -/

lemma profile_N (A D degree t : ℝ) :
    (calculate_corrugated_profile A D degree t).N =
      ⌊t / (A + 2 * round2 (D / Real.sin (degree * Real.pi / 180)))⌋ := rfl

lemma profile_L (A D degree t : ℝ) :
    (calculate_corrugated_profile A D degree t).L =
      round2 (D / Real.tan (degree * Real.pi / 180)) := rfl

lemma profile_slant (A D degree t : ℝ) :
    (calculate_corrugated_profile A D degree t).slant_length =
      round2 (D / Real.sin (degree * Real.pi / 180)) := rfl

lemma profile_module (A D degree t : ℝ) :
    (calculate_corrugated_profile A D degree t).module_physical_length =
      A + 2 * round2 (D / Real.sin (degree * Real.pi / 180)) := rfl

lemma profile_used (A D degree t : ℝ) :
    (calculate_corrugated_profile A D degree t).used_length =
      ((calculate_corrugated_profile A D degree t).N : ℝ) *
        (calculate_corrugated_profile A D degree t).module_physical_length +
      (if 0 < (calculate_corrugated_profile A D degree t).N then A else 0) := by
  by_cases h : 0 < (⌊t / (A + 2 * round2 (D / Real.sin (degree * Real.pi / 180)))⌋ : ℤ) <;>
    simp [calculate_corrugated_profile, h]

lemma profile_x (A D degree t : ℝ) :
    (calculate_corrugated_profile A D degree t).x_profile =
      (profile_loop A (calculate_corrugated_profile A D degree t).L D
        (calculate_corrugated_profile A D degree t).N.toNat 0).1 ++
      (if 0 < (calculate_corrugated_profile A D degree t).N then
        [((calculate_corrugated_profile A D degree t).N.toNat : ℝ) *
            (A + 2 * (calculate_corrugated_profile A D degree t).L),
         ((calculate_corrugated_profile A D degree t).N.toNat : ℝ) *
            (A + 2 * (calculate_corrugated_profile A D degree t).L) + A]
       else []) := by
  by_cases h : 0 < (⌊t / (A + 2 * round2 (D / Real.sin (degree * Real.pi / 180)))⌋ : ℤ) <;>
    simp [calculate_corrugated_profile, h, profile_loop_cursor]

lemma profile_z (A D degree t : ℝ) :
    (calculate_corrugated_profile A D degree t).z_profile =
      (profile_loop A (calculate_corrugated_profile A D degree t).L D
        (calculate_corrugated_profile A D degree t).N.toNat 0).2.1 ++
      (if 0 < (calculate_corrugated_profile A D degree t).N then [0, 0] else []) := by
  by_cases h : 0 < (⌊t / (A + 2 * round2 (D / Real.sin (degree * Real.pi / 180)))⌋ : ℤ) <;>
    simp [calculate_corrugated_profile, h]

/-- Closed form of the three leftover-related fields: the two leftover
point lists and the returned `leftover` value, as functions of the
post-closure leftover `lo = total_length - used_length` and the
post-closure cursor `c`.  Note that in the complete-slant branch the
returned `leftover` has had `slant_length` subtracted (source line 79),
and the second point reuses the cursor advanced by `L` (source line 78). -/
lemma profile_leftover_spec (A D degree t : ℝ) :
    (calculate_corrugated_profile A D degree t).leftover_profile_x =
      (if 0 < t - (calculate_corrugated_profile A D degree t).used_length then
        if (calculate_corrugated_profile A D degree t).slant_length ≤
            t - (calculate_corrugated_profile A D degree t).used_length then
          if 0 < t - (calculate_corrugated_profile A D degree t).used_length -
              (calculate_corrugated_profile A D degree t).slant_length then
            [((calculate_corrugated_profile A D degree t).N.toNat : ℝ) *
                (A + 2 * (calculate_corrugated_profile A D degree t).L) +
              (if 0 < (calculate_corrugated_profile A D degree t).N then A else 0) +
              (calculate_corrugated_profile A D degree t).L,
             ((calculate_corrugated_profile A D degree t).N.toNat : ℝ) *
                (A + 2 * (calculate_corrugated_profile A D degree t).L) +
              (if 0 < (calculate_corrugated_profile A D degree t).N then A else 0) +
              (calculate_corrugated_profile A D degree t).L +
              min (t - (calculate_corrugated_profile A D degree t).used_length -
                  (calculate_corrugated_profile A D degree t).slant_length)
                (calculate_corrugated_profile A D degree t).slant_length *
                Real.cos (degree * Real.pi / 180)]
          else
            [((calculate_corrugated_profile A D degree t).N.toNat : ℝ) *
                (A + 2 * (calculate_corrugated_profile A D degree t).L) +
              (if 0 < (calculate_corrugated_profile A D degree t).N then A else 0) +
              (calculate_corrugated_profile A D degree t).L]
        else
          [((calculate_corrugated_profile A D degree t).N.toNat : ℝ) *
              (A + 2 * (calculate_corrugated_profile A D degree t).L) +
            (if 0 < (calculate_corrugated_profile A D degree t).N then A else 0) +
            (t - (calculate_corrugated_profile A D degree t).used_length) *
              Real.cos (degree * Real.pi / 180)]
      else []) ∧
    (calculate_corrugated_profile A D degree t).leftover_profile_z =
      (if 0 < t - (calculate_corrugated_profile A D degree t).used_length then
        if (calculate_corrugated_profile A D degree t).slant_length ≤
            t - (calculate_corrugated_profile A D degree t).used_length then
          if 0 < t - (calculate_corrugated_profile A D degree t).used_length -
              (calculate_corrugated_profile A D degree t).slant_length then
            [D, max 0 (D -
              min (t - (calculate_corrugated_profile A D degree t).used_length -
                  (calculate_corrugated_profile A D degree t).slant_length)
                (calculate_corrugated_profile A D degree t).slant_length *
                Real.sin (degree * Real.pi / 180))]
          else [D]
        else
          [(t - (calculate_corrugated_profile A D degree t).used_length) *
            Real.sin (degree * Real.pi / 180)]
      else []) ∧
    (calculate_corrugated_profile A D degree t).leftover =
      (if 0 < t - (calculate_corrugated_profile A D degree t).used_length then
        if (calculate_corrugated_profile A D degree t).slant_length ≤
            t - (calculate_corrugated_profile A D degree t).used_length then
          t - (calculate_corrugated_profile A D degree t).used_length -
            (calculate_corrugated_profile A D degree t).slant_length
        else t - (calculate_corrugated_profile A D degree t).used_length
      else t - (calculate_corrugated_profile A D degree t).used_length) := by
  by_cases h : 0 < (⌊t / (A + 2 * round2 (D / Real.sin (degree * Real.pi / 180)))⌋ : ℤ) <;>
    (refine ⟨?_, ?_, ?_⟩ <;>
      · simp only [calculate_corrugated_profile, h, if_true, if_false, ite_true, ite_false,
          profile_loop_cursor, zero_add]
        split_ifs <;> first | rfl | simp)

lemma calculate_bending_cost_eq (N : ℤ) (lx lz : List ℝ) (c : ℝ) :
    calculate_bending_cost N lx lz c = (N * 3, ((N * 3 : ℤ) : ℝ) * c, N * 3, 0) := by
  unfold calculate_bending_cost
  have hzero : (if lx ≠ [] ∧ lz ≠ [] then
      if 0 < lz.length then leftover_bends_loop lz 0 0 else 0 else 0) = (0 : ℤ) := by
    split
    · split
      · exact leftover_bends_loop_eq_acc lz 0 0
      · rfl
    · rfl
  rw [hzero]
  simp

/-! ### Elementary helpers: rounding bounds, angle validity, concrete values -/

lemma floor_eq_of (x : ℝ) (z : ℤ) (h1 : (z : ℝ) ≤ x) (h2 : x < z + 1) : ⌊x⌋ = z :=
  Int.floor_eq_iff.mpr ⟨h1, h2⟩

lemma round2_eq_of (x : ℝ) (z : ℤ) (h1 : (z : ℝ) ≤ 100 * x + 1 / 2)
    (h2 : 100 * x + 1 / 2 < z + 1) : round2 x = (z : ℝ) / 100 := by
  unfold round2
  rw [round_eq, floor_eq_of _ z h1 h2]

lemma round2_nonneg (x : ℝ) (hx : 0 ≤ x) : 0 ≤ round2 x := by
  unfold round2
  apply div_nonneg _ (by norm_num)
  have : (0 : ℤ) ≤ round (100 * x) := by
    rw [round_eq]
    exact Int.floor_nonneg.mpr (by linarith)
  exact_mod_cast this

lemma round2_le_add (x : ℝ) : round2 x ≤ x + 1 / 200 := by
  have h := abs_sub_round (100 * x)
  rw [abs_le] at h
  unfold round2
  rw [div_le_iff₀ (by norm_num : (0:ℝ) < 100)]
  linarith [h.1]

lemma radian_pos (degree : ℝ) (h0 : 0 < degree) : 0 < degree * Real.pi / 180 := by
  have := Real.pi_pos
  positivity

lemma radian_lt (degree : ℝ) (h90 : degree < 90) : degree * Real.pi / 180 < Real.pi / 2 := by
  have := Real.pi_pos
  nlinarith

lemma sin_radian_pos (degree : ℝ) (h0 : 0 < degree) (h90 : degree < 90) :
    0 < Real.sin (degree * Real.pi / 180) := by
  refine Real.sin_pos_of_pos_of_lt_pi (radian_pos degree h0) ?_
  have := Real.pi_pos
  have := radian_lt degree h90
  linarith

lemma cos_radian_pos (degree : ℝ) (h0 : 0 < degree) (h90 : degree < 90) :
    0 < Real.cos (degree * Real.pi / 180) := by
  refine Real.cos_pos_of_mem_Ioo ⟨?_, radian_lt degree h90⟩
  have := Real.pi_pos
  have := radian_pos degree h0
  linarith

lemma tan_radian_pos (degree : ℝ) (h0 : 0 < degree) (h90 : degree < 90) :
    0 < Real.tan (degree * Real.pi / 180) :=
  Real.tan_pos_of_pos_of_lt_pi_div_two (radian_pos degree h0) (radian_lt degree h90)

lemma slant_nonneg (D degree : ℝ) (hD : 0 < D) (h0 : 0 < degree) (h90 : degree < 90) :
    0 ≤ round2 (D / Real.sin (degree * Real.pi / 180)) :=
  round2_nonneg _ (le_of_lt (div_pos hD (sin_radian_pos degree h0 h90)))

lemma module_pos (A D degree : ℝ) (hA : 0 < A) (hD : 0 < D) (h0 : 0 < degree)
    (h90 : degree < 90) : 0 < A + 2 * round2 (D / Real.sin (degree * Real.pi / 180)) := by
  have := slant_nonneg D degree hD h0 h90
  linarith

/-! Concrete trigonometry at 45 degrees. -/

lemma rad45 : (45 : ℝ) * Real.pi / 180 = Real.pi / 4 := by ring

lemma sin45 : Real.sin ((45 : ℝ) * Real.pi / 180) = Real.sqrt 2 / 2 := by
  rw [rad45, Real.sin_pi_div_four]

lemma cos45 : Real.cos ((45 : ℝ) * Real.pi / 180) = Real.sqrt 2 / 2 := by
  rw [rad45, Real.cos_pi_div_four]

lemma tan45 : Real.tan ((45 : ℝ) * Real.pi / 180) = 1 := by
  rw [rad45, Real.tan_pi_div_four]

lemma sqrt2_pos : 0 < Real.sqrt 2 := Real.sqrt_pos.mpr (by norm_num)

lemma sqrt2_sq : Real.sqrt 2 * Real.sqrt 2 = 2 := Real.mul_self_sqrt (by norm_num)

lemma sqrt2_gt : 1.41421 < Real.sqrt 2 := by
  nlinarith [sqrt2_sq, Real.sqrt_nonneg 2]

lemma sqrt2_lt : Real.sqrt 2 < 1.41422 := by
  nlinarith [sqrt2_sq, Real.sqrt_nonneg 2]

lemma div_sin45_60 : (60 : ℝ) / (Real.sqrt 2 / 2) = 60 * Real.sqrt 2 := by
  have h2 : Real.sqrt 2 ≠ 0 := ne_of_gt sqrt2_pos
  field_simp
  linear_combination (-60 : ℝ) * sqrt2_sq

lemma slant60 : round2 ((60 : ℝ) / Real.sin ((45 : ℝ) * Real.pi / 180)) = 84.85 := by
  rw [sin45, div_sin45_60]
  have h := round2_eq_of (60 * Real.sqrt 2) 8485
    (by nlinarith [sqrt2_gt]) (by nlinarith [sqrt2_lt])
  rw [h]; norm_num

lemma run60 : round2 ((60 : ℝ) / Real.tan ((45 : ℝ) * Real.pi / 180)) = 60 := by
  rw [tan45]
  have h := round2_eq_of ((60 : ℝ) / 1) 6000 (by norm_num) (by norm_num)
  rw [h]; norm_num

/-! Concrete evaluations at the slider defaults A = 90, D = 60, angle = 45
degrees, for several total lengths. -/

lemma N2440 : (calculate_corrugated_profile 90 60 45 2440).N = 9 := by
  rw [profile_N, slant60]
  exact floor_eq_of _ 9 (by norm_num) (by norm_num)

lemma used2440 : (calculate_corrugated_profile 90 60 45 2440).used_length = 2427.3 := by
  rw [profile_used, N2440, profile_module, slant60]
  norm_num

lemma leftover2440 : (calculate_corrugated_profile 90 60 45 2440).leftover = 12.7 := by
  obtain ⟨-, -, h⟩ := profile_leftover_spec 90 60 45 2440
  rw [used2440, profile_slant, slant60] at h
  norm_num at h
  linarith [h]

lemma N2519 : (calculate_corrugated_profile 90 60 45 2519).N = 9 := by
  rw [profile_N, slant60]
  exact floor_eq_of _ 9 (by norm_num) (by norm_num)

lemma used2519 : (calculate_corrugated_profile 90 60 45 2519).used_length = 2427.3 := by
  rw [profile_used, N2519, profile_module, slant60]
  norm_num

lemma leftover2519 : (calculate_corrugated_profile 90 60 45 2519).leftover = 6.85 := by
  obtain ⟨-, -, h⟩ := profile_leftover_spec 90 60 45 2519
  rw [used2519, profile_slant, slant60] at h
  norm_num at h
  linarith [h]

lemma N2600 : (calculate_corrugated_profile 90 60 45 2600).N = 10 := by
  rw [profile_N, slant60]
  exact floor_eq_of _ 10 (by norm_num) (by norm_num)

lemma used2600 : (calculate_corrugated_profile 90 60 45 2600).used_length = 2687 := by
  rw [profile_used, N2600, profile_module, slant60]
  norm_num

lemma leftover2600 : (calculate_corrugated_profile 90 60 45 2600).leftover = -87 := by
  obtain ⟨-, -, h⟩ := profile_leftover_spec 90 60 45 2600
  rw [used2600] at h
  norm_num at h
  linarith [h]

/-! Concrete evaluations for the near-boundary input A = 90,
D = 84.849 / sqrt 2, angle = 45 degrees, totalLength = 84.8495: here
D / sin 45 = 84.849 exactly, which `round2` rounds UP to 84.85, so a
leftover slightly above 84.849 still takes the partial-slant-up branch. -/

lemma div_sqrt2_half : (84.849 / Real.sqrt 2) / (Real.sqrt 2 / 2) = 84.849 := by
  have h2 : Real.sqrt 2 ≠ 0 := ne_of_gt sqrt2_pos
  field_simp

lemma slantD : round2 ((84.849 / Real.sqrt 2) / Real.sin ((45:ℝ) * Real.pi / 180)) =
    84.85 := by
  rw [sin45, div_sqrt2_half]
  have h := round2_eq_of (84.849 : ℝ) 8485 (by norm_num) (by norm_num)
  rw [h]; norm_num

lemma ND : (calculate_corrugated_profile 90 (84.849 / Real.sqrt 2) 45 84.8495).N = 0 := by
  rw [profile_N, slantD]
  exact floor_eq_of _ 0 (by norm_num) (by norm_num)

lemma usedD :
    (calculate_corrugated_profile 90 (84.849 / Real.sqrt 2) 45 84.8495).used_length = 0 := by
  rw [profile_used, ND]
  norm_num

/-! ### The claims -/

/-- Claim C1: for every valid input (A > 0, D > 0, fold angle strictly
between 0 and 90 degrees, totalLength > 0), `calculate_corrugated_profile`
returns module count N equal to floor(totalLength / moduleLength), where
moduleLength = A + 2*slantLength with L = round2(D / tan angle) and
slantLength = round2(D / sin angle), and this N satisfies
N * moduleLength <= totalLength. -/
theorem claim1_module_count (A D degree t : ℝ) (hA : 0 < A) (hD : 0 < D)
    (h0 : 0 < degree) (h90 : degree < 90) (_ht : 0 < t) :
    (calculate_corrugated_profile A D degree t).L =
        round2 (D / Real.tan (degree * Real.pi / 180)) ∧
    (calculate_corrugated_profile A D degree t).slant_length =
        round2 (D / Real.sin (degree * Real.pi / 180)) ∧
    (calculate_corrugated_profile A D degree t).module_physical_length =
        A + 2 * round2 (D / Real.sin (degree * Real.pi / 180)) ∧
    (calculate_corrugated_profile A D degree t).N =
        ⌊t / (A + 2 * round2 (D / Real.sin (degree * Real.pi / 180)))⌋ ∧
    ((calculate_corrugated_profile A D degree t).N : ℝ) *
        (calculate_corrugated_profile A D degree t).module_physical_length ≤ t := by
  refine ⟨profile_L A D degree t, profile_slant A D degree t, profile_module A D degree t,
    profile_N A D degree t, ?_⟩
  rw [profile_N, profile_module]
  have hm := module_pos A D degree hA hD h0 h90
  have h1 : (⌊t / (A + 2 * round2 (D / Real.sin (degree * Real.pi / 180)))⌋ : ℝ) ≤
      t / (A + 2 * round2 (D / Real.sin (degree * Real.pi / 180))) := Int.floor_le _
  have h2 := mul_le_mul_of_nonneg_right h1 (le_of_lt hm)
  rwa [div_mul_cancel₀ t (ne_of_gt hm)] at h2

/-- Witness for claim C1 at A = 90, D = 60, angle = 45, totalLength = 2440. -/
theorem claim1_witness :
    ((0:ℝ) < 90 ∧ (0:ℝ) < 60 ∧ (0:ℝ) < 45 ∧ (45:ℝ) < 90 ∧ (0:ℝ) < 2440) ∧
    ((calculate_corrugated_profile 90 60 45 2440).L =
        round2 (60 / Real.tan (45 * Real.pi / 180)) ∧
    (calculate_corrugated_profile 90 60 45 2440).slant_length =
        round2 (60 / Real.sin (45 * Real.pi / 180)) ∧
    (calculate_corrugated_profile 90 60 45 2440).module_physical_length =
        90 + 2 * round2 (60 / Real.sin (45 * Real.pi / 180)) ∧
    (calculate_corrugated_profile 90 60 45 2440).N =
        ⌊2440 / (90 + 2 * round2 (60 / Real.sin (45 * Real.pi / 180)))⌋ ∧
    ((calculate_corrugated_profile 90 60 45 2440).N : ℝ) *
        (calculate_corrugated_profile 90 60 45 2440).module_physical_length ≤ 2440) :=
  ⟨by norm_num, claim1_module_count 90 60 45 2440 (by norm_num) (by norm_num)
    (by norm_num) (by norm_num) (by norm_num)⟩

/-- Claim C3: for every module count N, every leftover point list and every
costPerBend, `calculate_bending_cost` returns leftoverBends = 0,
completeModuleBends = 3N, totalBends = 3N and totalCost = totalBends *
costPerBend, regardless of the leftover geometry. -/
theorem claim3_bending_cost (N : ℤ) (lx lz : List ℝ) (cost : ℝ) :
    (calculate_bending_cost N lx lz cost).2.2.2 = 0 ∧
    (calculate_bending_cost N lx lz cost).2.2.1 = 3 * N ∧
    (calculate_bending_cost N lx lz cost).1 = 3 * N ∧
    (calculate_bending_cost N lx lz cost).2.1 =
      ((calculate_bending_cost N lx lz cost).1 : ℝ) * cost := by
  rw [calculate_bending_cost_eq]
  refine ⟨rfl, by ring, by ring, rfl⟩

/-- Claim C4: for every valid input, the main profile contains exactly
4N + 2 points when N > 0 (four per module plus the two-point trailing flat
closure) and 0 points when N = 0, and the per-module points appear in the
exact spec order flat-start (x,0), flat-end (x+A,0), peak (x+A+L,D),
valley (x+A+2L,0), the cursor advancing by A, then L, then L, per
module. -/
theorem claim4_profile_shape (A D degree t : ℝ) (_hA : 0 < A) (_hD : 0 < D)
    (_h0 : 0 < degree) (_h90 : degree < 90) (_ht : 0 < t) :
    ((calculate_corrugated_profile A D degree t).N = 0 →
      (calculate_corrugated_profile A D degree t).x_profile = [] ∧
      (calculate_corrugated_profile A D degree t).z_profile = []) ∧
    (0 < (calculate_corrugated_profile A D degree t).N →
      (calculate_corrugated_profile A D degree t).x_profile.length =
        4 * (calculate_corrugated_profile A D degree t).N.toNat + 2 ∧
      (calculate_corrugated_profile A D degree t).z_profile.length =
        4 * (calculate_corrugated_profile A D degree t).N.toNat + 2 ∧
      (calculate_corrugated_profile A D degree t).x_profile =
        ((List.range (calculate_corrugated_profile A D degree t).N.toNat).map
          (fun i : ℕ => module_xs A (calculate_corrugated_profile A D degree t).L
            ((i : ℝ) * (A + 2 * (calculate_corrugated_profile A D degree t).L)))).flatten ++
        [((calculate_corrugated_profile A D degree t).N.toNat : ℝ) *
            (A + 2 * (calculate_corrugated_profile A D degree t).L),
         ((calculate_corrugated_profile A D degree t).N.toNat : ℝ) *
            (A + 2 * (calculate_corrugated_profile A D degree t).L) + A] ∧
      (calculate_corrugated_profile A D degree t).z_profile =
        ((List.range (calculate_corrugated_profile A D degree t).N.toNat).map
          (fun _ : ℕ => module_zs D)).flatten ++ [0, 0]) := by
  constructor
  · intro hN0
    rw [profile_x, profile_z, hN0]
    simp [profile_loop]
  · intro hN
    refine ⟨?_, ?_, ?_, ?_⟩
    · rw [profile_x, if_pos hN]
      simp [profile_loop_x_length]
    · rw [profile_z, if_pos hN]
      simp [profile_loop_z_length]
    · rw [profile_x, if_pos hN, profile_loop_x_join]
      simp [zero_add]
    · rw [profile_z, if_pos hN, profile_loop_z_join]

/-- Witness for claim C4 at A = 90, D = 60, angle = 45, totalLength =
2440. -/
theorem claim4_witness :
    ((0:ℝ) < 90 ∧ (0:ℝ) < 60 ∧ (0:ℝ) < 45 ∧ (45:ℝ) < 90 ∧ (0:ℝ) < 2440) ∧
    (((calculate_corrugated_profile 90 60 45 2440).N = 0 →
      (calculate_corrugated_profile 90 60 45 2440).x_profile = [] ∧
      (calculate_corrugated_profile 90 60 45 2440).z_profile = []) ∧
    (0 < (calculate_corrugated_profile 90 60 45 2440).N →
      (calculate_corrugated_profile 90 60 45 2440).x_profile.length =
        4 * (calculate_corrugated_profile 90 60 45 2440).N.toNat + 2 ∧
      (calculate_corrugated_profile 90 60 45 2440).z_profile.length =
        4 * (calculate_corrugated_profile 90 60 45 2440).N.toNat + 2 ∧
      (calculate_corrugated_profile 90 60 45 2440).x_profile =
        ((List.range (calculate_corrugated_profile 90 60 45 2440).N.toNat).map
          (fun i : ℕ => module_xs 90 (calculate_corrugated_profile 90 60 45 2440).L
            ((i : ℝ) * (90 + 2 * (calculate_corrugated_profile 90 60 45 2440).L)))).flatten ++
        [((calculate_corrugated_profile 90 60 45 2440).N.toNat : ℝ) *
            (90 + 2 * (calculate_corrugated_profile 90 60 45 2440).L),
         ((calculate_corrugated_profile 90 60 45 2440).N.toNat : ℝ) *
            (90 + 2 * (calculate_corrugated_profile 90 60 45 2440).L) + 90] ∧
      (calculate_corrugated_profile 90 60 45 2440).z_profile =
        ((List.range (calculate_corrugated_profile 90 60 45 2440).N.toNat).map
          (fun _ : ℕ => module_zs 60)).flatten ++ [0, 0])) :=
  ⟨by norm_num, claim4_profile_shape 90 60 45 2440 (by norm_num) (by norm_num)
    (by norm_num) (by norm_num) (by norm_num)⟩

/-- Claim C5: for every valid input with positive final (post-closure)
leftover: when leftover ≥ slantLength the leftover list is the complete
slant-up point (cursor + L, D), followed — when leftover − slantLength > 0
— by the partial slant-down point (cursor + L + partialSlant·cos angle,
max 0 (D − partialSlant·sin angle)) with partialSlant =
min (leftover − slantLength) slantLength; when 0 < leftover < slantLength
the leftover list is the single point (cursor + leftover·cos angle,
leftover·sin angle); the leftover lists hold at most two points, and
neither N nor usedLength is changed by the leftover handling. -/
theorem claim5_leftover_rule (A D degree t : ℝ) (_hA : 0 < A) (_hD : 0 < D)
    (_h0 : 0 < degree) (_h90 : degree < 90) (_ht : 0 < t)
    (hpos : 0 < t - (calculate_corrugated_profile A D degree t).used_length) :
    (calculate_corrugated_profile A D degree t).leftover_profile_x.length ≤ 2 ∧
    (calculate_corrugated_profile A D degree t).leftover_profile_z.length ≤ 2 ∧
    (calculate_corrugated_profile A D degree t).N =
      ⌊t / (A + 2 * round2 (D / Real.sin (degree * Real.pi / 180)))⌋ ∧
    (calculate_corrugated_profile A D degree t).used_length =
      ((calculate_corrugated_profile A D degree t).N : ℝ) *
        (calculate_corrugated_profile A D degree t).module_physical_length +
      (if 0 < (calculate_corrugated_profile A D degree t).N then A else 0) ∧
    ((calculate_corrugated_profile A D degree t).slant_length ≤
        t - (calculate_corrugated_profile A D degree t).used_length →
      (calculate_corrugated_profile A D degree t).leftover_profile_x =
        (if 0 < t - (calculate_corrugated_profile A D degree t).used_length -
            (calculate_corrugated_profile A D degree t).slant_length then
          [((calculate_corrugated_profile A D degree t).N.toNat : ℝ) *
              (A + 2 * (calculate_corrugated_profile A D degree t).L) +
            (if 0 < (calculate_corrugated_profile A D degree t).N then A else 0) +
            (calculate_corrugated_profile A D degree t).L,
           ((calculate_corrugated_profile A D degree t).N.toNat : ℝ) *
              (A + 2 * (calculate_corrugated_profile A D degree t).L) +
            (if 0 < (calculate_corrugated_profile A D degree t).N then A else 0) +
            (calculate_corrugated_profile A D degree t).L +
            min (t - (calculate_corrugated_profile A D degree t).used_length -
                (calculate_corrugated_profile A D degree t).slant_length)
              (calculate_corrugated_profile A D degree t).slant_length *
              Real.cos (degree * Real.pi / 180)]
        else
          [((calculate_corrugated_profile A D degree t).N.toNat : ℝ) *
              (A + 2 * (calculate_corrugated_profile A D degree t).L) +
            (if 0 < (calculate_corrugated_profile A D degree t).N then A else 0) +
            (calculate_corrugated_profile A D degree t).L]) ∧
      (calculate_corrugated_profile A D degree t).leftover_profile_z =
        (if 0 < t - (calculate_corrugated_profile A D degree t).used_length -
            (calculate_corrugated_profile A D degree t).slant_length then
          [D, max 0 (D -
            min (t - (calculate_corrugated_profile A D degree t).used_length -
                (calculate_corrugated_profile A D degree t).slant_length)
              (calculate_corrugated_profile A D degree t).slant_length *
              Real.sin (degree * Real.pi / 180))]
        else [D])) ∧
    (t - (calculate_corrugated_profile A D degree t).used_length <
        (calculate_corrugated_profile A D degree t).slant_length →
      (calculate_corrugated_profile A D degree t).leftover_profile_x =
        [((calculate_corrugated_profile A D degree t).N.toNat : ℝ) *
            (A + 2 * (calculate_corrugated_profile A D degree t).L) +
          (if 0 < (calculate_corrugated_profile A D degree t).N then A else 0) +
          (t - (calculate_corrugated_profile A D degree t).used_length) *
            Real.cos (degree * Real.pi / 180)] ∧
      (calculate_corrugated_profile A D degree t).leftover_profile_z =
        [(t - (calculate_corrugated_profile A D degree t).used_length) *
          Real.sin (degree * Real.pi / 180)]) := by
  obtain ⟨hx, hz, -⟩ := profile_leftover_spec A D degree t
  refine ⟨?_, ?_, profile_N A D degree t, profile_used A D degree t, ?_, ?_⟩
  · rw [hx]; split_ifs <;> simp
  · rw [hz]; split_ifs <;> simp
  · intro hsl
    rw [hx, hz, if_pos hpos, if_pos hpos, if_pos hsl, if_pos hsl]
    exact ⟨rfl, rfl⟩
  · intro hlt
    rw [hx, hz, if_pos hpos, if_pos hpos, if_neg (not_le.mpr hlt),
      if_neg (not_le.mpr hlt)]
    exact ⟨rfl, rfl⟩

/-- Witness for claim C5 at A = 90, D = 60, angle = 45, totalLength = 2440
(final leftover 12.7 > 0). -/
theorem claim5_witness :
    ((0:ℝ) < 90 ∧ (0:ℝ) < 60 ∧ (0:ℝ) < 45 ∧ (45:ℝ) < 90 ∧ (0:ℝ) < 2440 ∧
      0 < 2440 - (calculate_corrugated_profile 90 60 45 2440).used_length) ∧
    ((calculate_corrugated_profile 90 60 45 2440).leftover_profile_x.length ≤ 2 ∧
    (calculate_corrugated_profile 90 60 45 2440).leftover_profile_z.length ≤ 2 ∧
    (calculate_corrugated_profile 90 60 45 2440).N =
      ⌊2440 / (90 + 2 * round2 (60 / Real.sin (45 * Real.pi / 180)))⌋ ∧
    (calculate_corrugated_profile 90 60 45 2440).used_length =
      ((calculate_corrugated_profile 90 60 45 2440).N : ℝ) *
        (calculate_corrugated_profile 90 60 45 2440).module_physical_length +
      (if 0 < (calculate_corrugated_profile 90 60 45 2440).N then 90 else 0) ∧
    ((calculate_corrugated_profile 90 60 45 2440).slant_length ≤
        2440 - (calculate_corrugated_profile 90 60 45 2440).used_length →
      (calculate_corrugated_profile 90 60 45 2440).leftover_profile_x =
        (if 0 < 2440 - (calculate_corrugated_profile 90 60 45 2440).used_length -
            (calculate_corrugated_profile 90 60 45 2440).slant_length then
          [((calculate_corrugated_profile 90 60 45 2440).N.toNat : ℝ) *
              (90 + 2 * (calculate_corrugated_profile 90 60 45 2440).L) +
            (if 0 < (calculate_corrugated_profile 90 60 45 2440).N then 90 else 0) +
            (calculate_corrugated_profile 90 60 45 2440).L,
           ((calculate_corrugated_profile 90 60 45 2440).N.toNat : ℝ) *
              (90 + 2 * (calculate_corrugated_profile 90 60 45 2440).L) +
            (if 0 < (calculate_corrugated_profile 90 60 45 2440).N then 90 else 0) +
            (calculate_corrugated_profile 90 60 45 2440).L +
            min (2440 - (calculate_corrugated_profile 90 60 45 2440).used_length -
                (calculate_corrugated_profile 90 60 45 2440).slant_length)
              (calculate_corrugated_profile 90 60 45 2440).slant_length *
              Real.cos (45 * Real.pi / 180)]
        else
          [((calculate_corrugated_profile 90 60 45 2440).N.toNat : ℝ) *
              (90 + 2 * (calculate_corrugated_profile 90 60 45 2440).L) +
            (if 0 < (calculate_corrugated_profile 90 60 45 2440).N then 90 else 0) +
            (calculate_corrugated_profile 90 60 45 2440).L]) ∧
      (calculate_corrugated_profile 90 60 45 2440).leftover_profile_z =
        (if 0 < 2440 - (calculate_corrugated_profile 90 60 45 2440).used_length -
            (calculate_corrugated_profile 90 60 45 2440).slant_length then
          [60, max 0 (60 -
            min (2440 - (calculate_corrugated_profile 90 60 45 2440).used_length -
                (calculate_corrugated_profile 90 60 45 2440).slant_length)
              (calculate_corrugated_profile 90 60 45 2440).slant_length *
              Real.sin (45 * Real.pi / 180))]
        else [60])) ∧
    (2440 - (calculate_corrugated_profile 90 60 45 2440).used_length <
        (calculate_corrugated_profile 90 60 45 2440).slant_length →
      (calculate_corrugated_profile 90 60 45 2440).leftover_profile_x =
        [((calculate_corrugated_profile 90 60 45 2440).N.toNat : ℝ) *
            (90 + 2 * (calculate_corrugated_profile 90 60 45 2440).L) +
          (if 0 < (calculate_corrugated_profile 90 60 45 2440).N then 90 else 0) +
          (2440 - (calculate_corrugated_profile 90 60 45 2440).used_length) *
            Real.cos (45 * Real.pi / 180)] ∧
      (calculate_corrugated_profile 90 60 45 2440).leftover_profile_z =
        [(2440 - (calculate_corrugated_profile 90 60 45 2440).used_length) *
          Real.sin (45 * Real.pi / 180)])) :=
  ⟨⟨by norm_num, by norm_num, by norm_num, by norm_num, by norm_num,
      by rw [used2440]; norm_num⟩,
    claim5_leftover_rule 90 60 45 2440 (by norm_num) (by norm_num) (by norm_num)
      (by norm_num) (by norm_num) (by rw [used2440]; norm_num)⟩

/-- Claim C7 counterexample: at the valid input A = 90,
D = 84.849 / sqrt 2, angle = 45, totalLength = 84.8495, the slant length
rounds UP (D / sin 45 = 84.849, round2 = 84.85), the whole totalLength
becomes leftover (N = 0) and takes the partial-slant-up branch, and the
single leftover z-coordinate 84.8495 · (sqrt 2 / 2) strictly exceeds D:
the leftover heights are NOT confined to [0, D]. -/
theorem claim7_counterexample :
    ((0:ℝ) < 90 ∧ 0 < 84.849 / Real.sqrt 2 ∧ (0:ℝ) < 45 ∧ (45:ℝ) < 90 ∧
      (0:ℝ) < 84.8495) ∧
    (calculate_corrugated_profile 90 (84.849 / Real.sqrt 2) 45
        84.8495).leftover_profile_z = [84.8495 * (Real.sqrt 2 / 2)] ∧
    84.849 / Real.sqrt 2 < 84.8495 * (Real.sqrt 2 / 2) := by
  obtain ⟨-, hz, -⟩ := profile_leftover_spec 90 (84.849 / Real.sqrt 2) 45 84.8495
  rw [usedD, profile_slant, slantD, sin45] at hz
  norm_num at hz
  refine ⟨⟨by norm_num, by positivity, by norm_num, by norm_num, by norm_num⟩, ?_, ?_⟩
  · norm_num
    exact hz
  · rw [div_lt_iff₀ sqrt2_pos]
    nlinarith [sqrt2_sq, sqrt2_pos]

/-- Claim C7 (amended): for every valid input every z-coordinate of the
main profile is exactly 0 or exactly D, and every z-coordinate of the
leftover point list lies in [0, D + 1/200]; the single synthetic
partial-slant-up point can exceed D by at most the 1/200 rounding slack of
`round2` applied to the slant length (as the counterexample shows, [0, D]
itself does not bound it). -/
theorem claim7_heights (A D degree t : ℝ) (_hA : 0 < A) (hD : 0 < D)
    (h0 : 0 < degree) (h90 : degree < 90) (_ht : 0 < t) :
    (∀ z ∈ (calculate_corrugated_profile A D degree t).z_profile, z = 0 ∨ z = D) ∧
    (∀ z ∈ (calculate_corrugated_profile A D degree t).leftover_profile_z,
      0 ≤ z ∧ z ≤ D + 1 / 200) := by
  constructor
  · intro z hz
    rw [profile_z] at hz
    rcases List.mem_append.mp hz with h | h
    · exact profile_loop_z_mem A (calculate_corrugated_profile A D degree t).L D
        (calculate_corrugated_profile A D degree t).N.toNat 0 z h
    · split_ifs at h
      · simp at h
        exact Or.inl h
      · simp at h
  · obtain ⟨-, hz, -⟩ := profile_leftover_spec A D degree t
    intro z hmem
    rw [hz] at hmem
    have hsin := sin_radian_pos degree h0 h90
    have hsin1 := Real.sin_le_one (degree * Real.pi / 180)
    have hs0 : 0 ≤ (calculate_corrugated_profile A D degree t).slant_length := by
      rw [profile_slant]; exact slant_nonneg D degree hD h0 h90
    split_ifs at hmem with h1 h2 h3
    · simp only [List.mem_cons, List.mem_singleton, List.not_mem_nil, or_false] at hmem
      rcases hmem with h | h
      · rw [h]; exact ⟨hD.le, by linarith⟩
      · rw [h]
        have hmin : 0 ≤ min (t - (calculate_corrugated_profile A D degree t).used_length -
            (calculate_corrugated_profile A D degree t).slant_length)
            (calculate_corrugated_profile A D degree t).slant_length :=
          le_min (by linarith) hs0
        refine ⟨le_max_left 0 _, max_le (by linarith) ?_⟩
        nlinarith [mul_nonneg hmin hsin.le]
    · simp only [List.mem_singleton] at hmem
      rw [hmem]; exact ⟨hD.le, by linarith⟩
    · simp only [List.mem_singleton] at hmem
      rw [hmem]
      have hlo : 0 < t - (calculate_corrugated_profile A D degree t).used_length := h1
      have hlos : t - (calculate_corrugated_profile A D degree t).used_length <
          (calculate_corrugated_profile A D degree t).slant_length := not_le.mp h2
      have hsle : (calculate_corrugated_profile A D degree t).slant_length ≤
          D / Real.sin (degree * Real.pi / 180) + 1 / 200 := by
        rw [profile_slant]; exact round2_le_add _
      have hdiv : D / Real.sin (degree * Real.pi / 180) *
          Real.sin (degree * Real.pi / 180) = D := div_mul_cancel₀ D (ne_of_gt hsin)
      constructor
      · exact mul_nonneg hlo.le hsin.le
      · nlinarith [mul_le_mul_of_nonneg_right hlos.le hsin.le,
          mul_le_mul_of_nonneg_right hsle hsin.le]
    · simp at hmem

/-- Witness for the amended claim C7 at A = 90, D = 60, angle = 45,
totalLength = 2440. -/
theorem claim7_witness :
    ((0:ℝ) < 90 ∧ (0:ℝ) < 60 ∧ (0:ℝ) < 45 ∧ (45:ℝ) < 90 ∧ (0:ℝ) < 2440) ∧
    ((∀ z ∈ (calculate_corrugated_profile 90 60 45 2440).z_profile, z = 0 ∨ z = 60) ∧
    (∀ z ∈ (calculate_corrugated_profile 90 60 45 2440).leftover_profile_z,
      0 ≤ z ∧ z ≤ 60 + 1 / 200)) :=
  ⟨by norm_num, claim7_heights 90 60 45 2440 (by norm_num) (by norm_num) (by norm_num)
    (by norm_num) (by norm_num)⟩

/-- Claim C8: for every valid input with totalLength < moduleLength,
`calculate_corrugated_profile` returns N = 0, an empty main profile with no
trailing closure (usedLength = 0), and the full totalLength as the leftover
amount, to which the partial-segment rule is applied from cursor position
0; in particular when totalLength < slantLength the leftover list is the
single partial-slant-up point (totalLength·cos angle, totalLength·sin
angle). -/
theorem claim8_below_one_module (A D degree t : ℝ) (hA : 0 < A) (hD : 0 < D)
    (h0 : 0 < degree) (h90 : degree < 90) (ht : 0 < t)
    (hlt : t < A + 2 * round2 (D / Real.sin (degree * Real.pi / 180))) :
    (calculate_corrugated_profile A D degree t).N = 0 ∧
    (calculate_corrugated_profile A D degree t).x_profile = [] ∧
    (calculate_corrugated_profile A D degree t).z_profile = [] ∧
    (calculate_corrugated_profile A D degree t).used_length = 0 ∧
    t - (calculate_corrugated_profile A D degree t).used_length = t ∧
    (round2 (D / Real.sin (degree * Real.pi / 180)) ≤ t →
      (calculate_corrugated_profile A D degree t).leftover_profile_x =
        (if 0 < t - round2 (D / Real.sin (degree * Real.pi / 180)) then
          [(calculate_corrugated_profile A D degree t).L,
           (calculate_corrugated_profile A D degree t).L +
             min (t - round2 (D / Real.sin (degree * Real.pi / 180)))
               (round2 (D / Real.sin (degree * Real.pi / 180))) *
               Real.cos (degree * Real.pi / 180)]
        else [(calculate_corrugated_profile A D degree t).L]) ∧
      (calculate_corrugated_profile A D degree t).leftover_profile_z =
        (if 0 < t - round2 (D / Real.sin (degree * Real.pi / 180)) then
          [D, max 0 (D - min (t - round2 (D / Real.sin (degree * Real.pi / 180)))
               (round2 (D / Real.sin (degree * Real.pi / 180))) *
               Real.sin (degree * Real.pi / 180))]
        else [D]) ∧
      (calculate_corrugated_profile A D degree t).leftover =
        t - round2 (D / Real.sin (degree * Real.pi / 180))) ∧
    (t < round2 (D / Real.sin (degree * Real.pi / 180)) →
      (calculate_corrugated_profile A D degree t).leftover_profile_x =
        [t * Real.cos (degree * Real.pi / 180)] ∧
      (calculate_corrugated_profile A D degree t).leftover_profile_z =
        [t * Real.sin (degree * Real.pi / 180)] ∧
      (calculate_corrugated_profile A D degree t).leftover = t) := by
  have hm := module_pos A D degree hA hD h0 h90
  have hN : (calculate_corrugated_profile A D degree t).N = 0 := by
    rw [profile_N]
    refine floor_eq_of _ 0 ?_ ?_
    · push_cast
      exact div_nonneg ht.le hm.le
    · push_cast
      rw [zero_add]
      exact (div_lt_one hm).mpr hlt
  have hused : (calculate_corrugated_profile A D degree t).used_length = 0 := by
    rw [profile_used, hN]
    norm_num
  obtain ⟨hx, hz, hl⟩ := profile_leftover_spec A D degree t
  rw [hused] at hx hz hl
  rw [hN] at hx
  rw [profile_slant] at hx hz hl
  norm_num at hx hz hl
  refine ⟨hN, ?_, ?_, hused, by rw [hused]; ring, ?_, ?_⟩
  · rw [profile_x, hN]
    simp [profile_loop]
  · rw [profile_z, hN]
    simp [profile_loop]
  · intro hst
    rw [hx, hz, hl]
    rw [if_pos ht, if_pos ht, if_pos ht, if_pos hst, if_pos hst, if_pos hst]
    refine ⟨?_, ?_, rfl⟩ <;> simp only [sub_pos]
  · intro hts
    rw [hx, hz, hl]
    rw [if_pos ht, if_pos ht, if_pos ht, if_neg (not_le.mpr hts),
      if_neg (not_le.mpr hts), if_neg (not_le.mpr hts)]
    exact ⟨rfl, rfl, rfl⟩

/-- Witness for claim C8 at A = 90, D = 60, angle = 45, totalLength = 40
(below one module length 259.7, and below the slant length 84.85). -/
theorem claim8_witness :
    ((0:ℝ) < 90 ∧ (0:ℝ) < 60 ∧ (0:ℝ) < 45 ∧ (45:ℝ) < 90 ∧ (0:ℝ) < 40 ∧
      (40:ℝ) < 90 + 2 * round2 (60 / Real.sin (45 * Real.pi / 180))) ∧
    ((calculate_corrugated_profile 90 60 45 40).N = 0 ∧
    (calculate_corrugated_profile 90 60 45 40).x_profile = [] ∧
    (calculate_corrugated_profile 90 60 45 40).z_profile = [] ∧
    (calculate_corrugated_profile 90 60 45 40).used_length = 0 ∧
    40 - (calculate_corrugated_profile 90 60 45 40).used_length = 40 ∧
    (round2 (60 / Real.sin (45 * Real.pi / 180)) ≤ 40 →
      (calculate_corrugated_profile 90 60 45 40).leftover_profile_x =
        (if 0 < 40 - round2 (60 / Real.sin (45 * Real.pi / 180)) then
          [(calculate_corrugated_profile 90 60 45 40).L,
           (calculate_corrugated_profile 90 60 45 40).L +
             min (40 - round2 (60 / Real.sin (45 * Real.pi / 180)))
               (round2 (60 / Real.sin (45 * Real.pi / 180))) *
               Real.cos (45 * Real.pi / 180)]
        else [(calculate_corrugated_profile 90 60 45 40).L]) ∧
      (calculate_corrugated_profile 90 60 45 40).leftover_profile_z =
        (if 0 < 40 - round2 (60 / Real.sin (45 * Real.pi / 180)) then
          [60, max 0 (60 - min (40 - round2 (60 / Real.sin (45 * Real.pi / 180)))
               (round2 (60 / Real.sin (45 * Real.pi / 180))) *
               Real.sin (45 * Real.pi / 180))]
        else [60]) ∧
      (calculate_corrugated_profile 90 60 45 40).leftover =
        40 - round2 (60 / Real.sin (45 * Real.pi / 180))) ∧
    (40 < round2 (60 / Real.sin (45 * Real.pi / 180)) →
      (calculate_corrugated_profile 90 60 45 40).leftover_profile_x =
        [40 * Real.cos (45 * Real.pi / 180)] ∧
      (calculate_corrugated_profile 90 60 45 40).leftover_profile_z =
        [40 * Real.sin (45 * Real.pi / 180)] ∧
      (calculate_corrugated_profile 90 60 45 40).leftover = 40)) :=
  ⟨⟨by norm_num, by norm_num, by norm_num, by norm_num, by norm_num,
      by rw [slant60]; norm_num⟩,
    claim8_below_one_module 90 60 45 40 (by norm_num) (by norm_num) (by norm_num)
      (by norm_num) (by norm_num) (by rw [slant60]; norm_num)⟩

/-- Claim C9: the concrete scenario A = 90, D = 60, angle = 45 degrees,
totalLength = 2440 yields L = 60.00, slantLength = 84.85, moduleLength =
259.70, N = 9, post-closure usedLength = 2427.3 and leftover = 12.7, the
design does not fail (usedLength does not exceed 2440), and
`calculate_bending_cost` on this result returns totalBends = 27. -/
theorem claim9_scenario1 :
    (calculate_corrugated_profile 90 60 45 2440).L = 60 ∧
    (calculate_corrugated_profile 90 60 45 2440).slant_length = 84.85 ∧
    (calculate_corrugated_profile 90 60 45 2440).module_physical_length = 259.7 ∧
    (calculate_corrugated_profile 90 60 45 2440).N = 9 ∧
    (calculate_corrugated_profile 90 60 45 2440).used_length = 2427.3 ∧
    (calculate_corrugated_profile 90 60 45 2440).leftover = 12.7 ∧
    ¬ ((2440 : ℝ) < (calculate_corrugated_profile 90 60 45 2440).used_length) ∧
    (calculate_bending_cost (calculate_corrugated_profile 90 60 45 2440).N
        (calculate_corrugated_profile 90 60 45 2440).leftover_profile_x
        (calculate_corrugated_profile 90 60 45 2440).leftover_profile_z 50).1 = 27 := by
  refine ⟨?_, ?_, ?_, N2440, used2440, leftover2440, ?_, ?_⟩
  · rw [profile_L, run60]
  · rw [profile_slant, slant60]
  · rw [profile_module, slant60]; norm_num
  · rw [used2440]; norm_num
  · rw [calculate_bending_cost_eq, N2440]; norm_num

/-- Claim C2 counterexample: the input A = 90, D = 60, angle = 45,
totalLength = 2519 is valid and has N = 9 > 0, yet the returned leftover is
6.85 while totalLength − usedLength = 2519 − 2427.3 = 91.7: the identity
`leftover = totalLength − usedLength` fails at the returned values, because
the complete-slant leftover branch subtracted slantLength from leftover
(source line 79) without touching usedLength. -/
theorem claim2_counterexample :
    ((0:ℝ) < 90 ∧ (0:ℝ) < 60 ∧ (0:ℝ) < 45 ∧ (45:ℝ) < 90 ∧ (0:ℝ) < 2519) ∧
    0 < (calculate_corrugated_profile 90 60 45 2519).N ∧
    (calculate_corrugated_profile 90 60 45 2519).used_length = 2427.3 ∧
    (calculate_corrugated_profile 90 60 45 2519).leftover = 6.85 ∧
    (calculate_corrugated_profile 90 60 45 2519).leftover ≠
      2519 - (calculate_corrugated_profile 90 60 45 2519).used_length := by
  refine ⟨by norm_num, ?_, used2519, leftover2519, ?_⟩
  · rw [N2519]; norm_num
  · rw [leftover2519, used2519]; norm_num

/-- Claim C2 (amended): for every valid input with N > 0 the usedLength
returned by `calculate_corrugated_profile` equals N * moduleLength + A, and
the returned leftover equals totalLength − usedLength unless the
complete-slant leftover branch ran (the post-closure leftover was positive
and at least slantLength), in which case the returned leftover is
totalLength − usedLength − slantLength. -/
theorem claim2_used_length_leftover (A D degree t : ℝ) (_hA : 0 < A) (_hD : 0 < D)
    (_h0 : 0 < degree) (_h90 : degree < 90) (_ht : 0 < t)
    (hN : 0 < (calculate_corrugated_profile A D degree t).N) :
    (calculate_corrugated_profile A D degree t).used_length =
      ((calculate_corrugated_profile A D degree t).N : ℝ) *
        (calculate_corrugated_profile A D degree t).module_physical_length + A ∧
    (calculate_corrugated_profile A D degree t).leftover =
      (if 0 < t - (calculate_corrugated_profile A D degree t).used_length ∧
          (calculate_corrugated_profile A D degree t).slant_length ≤
            t - (calculate_corrugated_profile A D degree t).used_length then
        t - (calculate_corrugated_profile A D degree t).used_length -
          (calculate_corrugated_profile A D degree t).slant_length
      else t - (calculate_corrugated_profile A D degree t).used_length) := by
  constructor
  · rw [profile_used, if_pos hN]
  · obtain ⟨-, -, h⟩ := profile_leftover_spec A D degree t
    rw [h]
    by_cases h1 : 0 < t - (calculate_corrugated_profile A D degree t).used_length
    · by_cases h2 : (calculate_corrugated_profile A D degree t).slant_length ≤
          t - (calculate_corrugated_profile A D degree t).used_length
      · rw [if_pos h1, if_pos h2, if_pos ⟨h1, h2⟩]
      · rw [if_pos h1, if_neg h2, if_neg (fun hc => h2 hc.2)]
    · rw [if_neg h1, if_neg (fun hc => h1 hc.1)]

/-- Witness for the amended claim C2 at A = 90, D = 60, angle = 45,
totalLength = 2440 (where N = 9 > 0). -/
theorem claim2_witness :
    ((0:ℝ) < 90 ∧ (0:ℝ) < 60 ∧ (0:ℝ) < 45 ∧ (45:ℝ) < 90 ∧ (0:ℝ) < 2440 ∧
      0 < (calculate_corrugated_profile 90 60 45 2440).N) ∧
    ((calculate_corrugated_profile 90 60 45 2440).used_length =
      ((calculate_corrugated_profile 90 60 45 2440).N : ℝ) *
        (calculate_corrugated_profile 90 60 45 2440).module_physical_length + 90 ∧
    (calculate_corrugated_profile 90 60 45 2440).leftover =
      (if 0 < 2440 - (calculate_corrugated_profile 90 60 45 2440).used_length ∧
          (calculate_corrugated_profile 90 60 45 2440).slant_length ≤
            2440 - (calculate_corrugated_profile 90 60 45 2440).used_length then
        2440 - (calculate_corrugated_profile 90 60 45 2440).used_length -
          (calculate_corrugated_profile 90 60 45 2440).slant_length
      else 2440 - (calculate_corrugated_profile 90 60 45 2440).used_length)) :=
  ⟨⟨by norm_num, by norm_num, by norm_num, by norm_num, by norm_num,
      by rw [N2440]; norm_num⟩,
    claim2_used_length_leftover 90 60 45 2440 (by norm_num) (by norm_num) (by norm_num)
      (by norm_num) (by norm_num) (by rw [N2440]; norm_num)⟩

/-- Claim C6 counterexample: the input A = 90, D = 60, angle = 45,
totalLength = 2600 is valid, yet the returned leftover is −87 < 0: the
trailing flat closure pushed usedLength to 2687 > 2600 and the negative
difference is returned unchanged. -/
theorem claim6_counterexample :
    ((0:ℝ) < 90 ∧ (0:ℝ) < 60 ∧ (0:ℝ) < 45 ∧ (45:ℝ) < 90 ∧ (0:ℝ) < 2600) ∧
    (calculate_corrugated_profile 90 60 45 2600).leftover = -87 ∧
    (calculate_corrugated_profile 90 60 45 2600).leftover < 0 := by
  refine ⟨by norm_num, leftover2600, ?_⟩
  rw [leftover2600]; norm_num

/-- Claim C6 (amended): for every valid input the leftover length returned
by `calculate_corrugated_profile` is zero or positive whenever usedLength
does not exceed totalLength, and in the design-failure case (usedLength
exceeds totalLength) the returned leftover is negative: the leftover
handling runs only on a strictly positive leftover and returns the
negative difference unchanged. -/
theorem claim6_leftover_nonneg (A D degree t : ℝ) (_hA : 0 < A) (_hD : 0 < D)
    (_h0 : 0 < degree) (_h90 : degree < 90) (_ht : 0 < t) :
    ((calculate_corrugated_profile A D degree t).used_length ≤ t →
      0 ≤ (calculate_corrugated_profile A D degree t).leftover) ∧
    (t < (calculate_corrugated_profile A D degree t).used_length →
      (calculate_corrugated_profile A D degree t).leftover < 0) := by
  obtain ⟨-, -, h⟩ := profile_leftover_spec A D degree t
  constructor
  · intro hle
    rw [h]
    split_ifs with h1 h2
    · linarith
    · linarith
    · linarith
  · intro hgt
    rw [h, if_neg (by linarith : ¬ 0 < t -
      (calculate_corrugated_profile A D degree t).used_length)]
    linarith

/-- Witness for the amended claim C6 at A = 90, D = 60, angle = 45,
totalLength = 2440. -/
theorem claim6_witness :
    ((0:ℝ) < 90 ∧ (0:ℝ) < 60 ∧ (0:ℝ) < 45 ∧ (45:ℝ) < 90 ∧ (0:ℝ) < 2440) ∧
    (((calculate_corrugated_profile 90 60 45 2440).used_length ≤ 2440 →
      0 ≤ (calculate_corrugated_profile 90 60 45 2440).leftover) ∧
    (2440 < (calculate_corrugated_profile 90 60 45 2440).used_length →
      (calculate_corrugated_profile 90 60 45 2440).leftover < 0)) :=
  ⟨by norm_num, claim6_leftover_nonneg 90 60 45 2440 (by norm_num) (by norm_num)
    (by norm_num) (by norm_num) (by norm_num)⟩

/-- Claim C10: for every valid input where the trailing flat closure makes
usedLength exceed totalLength (design failure, final leftover < 0), both
leftover point lists returned by `calculate_corrugated_profile` are empty:
the partial-segment rule runs only when the leftover is strictly
positive. -/
theorem claim10_failed_no_leftover_geometry (A D degree t : ℝ) (_hA : 0 < A) (_hD : 0 < D)
    (_h0 : 0 < degree) (_h90 : degree < 90) (_ht : 0 < t)
    (hfail : t < (calculate_corrugated_profile A D degree t).used_length) :
    (calculate_corrugated_profile A D degree t).leftover_profile_x = [] ∧
    (calculate_corrugated_profile A D degree t).leftover_profile_z = [] := by
  obtain ⟨hx, hz, -⟩ := profile_leftover_spec A D degree t
  have h1 : ¬ 0 < t - (calculate_corrugated_profile A D degree t).used_length := by linarith
  exact ⟨by rw [hx, if_neg h1], by rw [hz, if_neg h1]⟩

/-- Witness for claim C10 at A = 90, D = 60, angle = 45, totalLength =
2600, where usedLength = 2687 > 2600. -/
theorem claim10_witness :
    ((0:ℝ) < 90 ∧ (0:ℝ) < 60 ∧ (0:ℝ) < 45 ∧ (45:ℝ) < 90 ∧ (0:ℝ) < 2600 ∧
      2600 < (calculate_corrugated_profile 90 60 45 2600).used_length) ∧
    ((calculate_corrugated_profile 90 60 45 2600).leftover_profile_x = [] ∧
      (calculate_corrugated_profile 90 60 45 2600).leftover_profile_z = []) :=
  ⟨⟨by norm_num, by norm_num, by norm_num, by norm_num, by norm_num,
      by rw [used2600]; norm_num⟩,
    claim10_failed_no_leftover_geometry 90 60 45 2600 (by norm_num) (by norm_num)
      (by norm_num) (by norm_num) (by norm_num) (by rw [used2600]; norm_num)⟩

end
